import Mathlib

/-!
Verification of the call-lifecycle bookkeeping of the livekit-gemini
repository, as a shallow embedding in Lean 4.

Embedded code:
  - `src/outbound_caller.py`: `CallRecipient`, `CallResult`,
    `OutboundCaller._validate_credentials`, `validate_phone_number`,
    `make_outbound_call`, `make_bulk_calls`, `update_call_result`,
    `get_campaign_summary`.
  - `src/agent.py`: the pickup-watching loop of `entrypoint`.
  - `src/webhook_handler.py`: `call_status_webhook`,
    `update_outbound_caller_status`.

Modelling conventions: the `OutboundCaller` object's mutable
`self.call_results` list is passed and returned explicitly; wall-clock
timestamps (`datetime.now()`, `perf_counter`) are abstracted to a `Nat`
parameter; external effects (the phonenumbers library, the Twilio client,
the LiveKit participant) enter as explicit inputs describing the
observable outcome of each external interaction; Python exceptions are
`Except` values.
-/

namespace LivekitGemini

/-- Data class for call recipient information (`outbound_caller.py` lines 16-23). -/
structure CallRecipient where
  name : String
  phone_number : String
  company : Option String := none
  notes : Option String := none
  timezone : Option String := none
deriving DecidableEq, Repr

/-- Data class for call result tracking (`outbound_caller.py` lines 25-34).
Timestamps are abstract `Nat` instants. -/
structure CallResult where
  recipient : CallRecipient
  call_sid : String
  status : String
  initiated_at : Nat
  completed_at : Option Nat := none
  duration : Option Int := none
  error : Option String := none
deriving DecidableEq, Repr

/-- Statuses for which `update_call_result` stamps `completed_at`
(`outbound_caller.py` line 243). -/
def completion_statuses : List String := ["completed", "failed", "busy", "no-answer"]

/-- Terminal statuses named by the specification's monotonicity invariant
(spec section 3): completed/failed/busy/no-answer/rejected/timeout. -/
def terminal_statuses : List String :=
  ["completed", "failed", "busy", "no-answer", "rejected", "timeout"]

/-- Mutation applied to the matched record inside `update_call_result`
(`outbound_caller.py` lines 240-244): the status is overwritten
unconditionally; the duration is stored only when truthy (present and
nonzero, Python `if duration:`); `completed_at` is stamped exactly when the
new status is in `completion_statuses`. -/
def apply_status_update (r : CallResult) (status : String) (duration : Option Int)
    (now : Nat) : CallResult :=
  { r with
    status := status
    duration :=
      match duration with
      | some d => if d = 0 then r.duration else some d
      | none => r.duration
    completed_at := if status ∈ completion_statuses then some now else r.completed_at }

/-- Embedding of `OutboundCaller.update_call_result` (`outbound_caller.py`
lines 228-245): scan `self.call_results` in order, mutate the first record
whose `call_sid` matches, then `break`. -/
def update_call_result (store : List CallResult) (call_sid : String) (status : String)
    (duration : Option Int) (now : Nat) : List CallResult :=
  match store with
  | [] => []
  | r :: rs =>
    if r.call_sid = call_sid then apply_status_update r status duration now :: rs
    else r :: update_call_result rs call_sid status duration now

/-- Index of the earliest record whose `call_sid` matches, mirroring the
`for ... if ... break` scan of `update_call_result`. -/
def firstMatchIdx (store : List CallResult) (call_sid : String) : Option Nat :=
  match store with
  | [] => none
  | r :: rs =>
    if r.call_sid = call_sid then some 0
    else (firstMatchIdx rs call_sid).map (· + 1)

/-- Observable outcome of `phonenumbers.parse` / `is_valid_number` /
`format_number` on a given input string (external library, modelled by its
documented results). -/
structure ParseResult where
  parses : Bool
  parseErr : String
  is_valid : Bool
  e164 : String
deriving DecidableEq, Repr

/-- Embedding of `OutboundCaller.validate_phone_number` (`outbound_caller.py`
lines 76-98): parse; if the parsed number is not valid, raise
`NumberParseException` with the message of line 94; return the E164
formatting otherwise. A raised `NumberParseException` is an `Except.error`. -/
def validate_phone_number (p : ParseResult) : Except String String :=
  if p.parses then
    if p.is_valid then Except.ok p.e164
    else Except.error "The provided number is not valid"
  else Except.error p.parseErr

/-- Carrier-assigned call object returned by `twilio_client.calls.create`. -/
structure CarrierCall where
  sid : String
  status : String
deriving DecidableEq, Repr

/-- Observable outcome of the Twilio `calls.create` request: a call object,
or a raised `TwilioException` with a message. -/
inductive CarrierOutcome where
  | ok (call : CarrierCall)
  | err (msg : String)
deriving DecidableEq, Repr

/-- Result of one execution of `make_outbound_call`: the returned
`CallResult`, the new `self.call_results` store, and whether the external
`twilio_client.calls.create` request was issued. -/
structure CallOutcome where
  result : CallResult
  store : List CallResult
  carrierCalled : Bool
deriving Repr

/-- Embedding of `OutboundCaller.make_outbound_call` (`outbound_caller.py`
lines 100-162): validate the number first; only when validation succeeds is
the Twilio create-call request issued; a `NumberParseException` or
`TwilioException` is caught and converted to a `CallResult` with status
"failed", empty `call_sid` and the exception text as `error`; every path
appends exactly the returned result to `self.call_results` and returns it. -/
def make_outbound_call (store : List CallResult) (recipient : CallRecipient)
    (parse : ParseResult) (carrier : CarrierOutcome) (now : Nat) : CallOutcome :=
  match validate_phone_number parse with
  | Except.error e =>
    let r : CallResult :=
      { recipient := recipient, call_sid := "", status := "failed",
        initiated_at := now, error := some e }
    { result := r, store := store ++ [r], carrierCalled := false }
  | Except.ok _ =>
    match carrier with
    | CarrierOutcome.ok call =>
      let r : CallResult :=
        { recipient := recipient, call_sid := call.sid, status := call.status,
          initiated_at := now }
      { result := r, store := store ++ [r], carrierCalled := true }
    | CarrierOutcome.err e =>
      let r : CallResult :=
        { recipient := recipient, call_sid := "", status := "failed",
          initiated_at := now, error := some e }
      { result := r, store := store ++ [r], carrierCalled := true }

/-- Per-recipient external behaviour during a bulk campaign: either
`make_outbound_call` runs normally on the given external outcomes, or an
exception outside the two caught classes escapes it and is caught by the
`except Exception` arm of `make_bulk_calls` (`outbound_caller.py` lines
189-198). -/
inductive DispatchInput where
  | normal (parse : ParseResult) (carrier : CarrierOutcome)
  | unexpected (msg : String)
deriving Repr

/-- Embedding of `OutboundCaller.make_bulk_calls` (`outbound_caller.py` lines
164-201): iterate the recipients in order; each iteration appends one
result; an escaping exception yields a `CallResult` with status "error" and
the exception text, and iteration continues. Returns the `results` list and
the final `self.call_results` store. The inter-call `asyncio.sleep` has no
observable effect on the store and is not modelled. -/
def make_bulk_calls : List CallResult → List (CallRecipient × DispatchInput) → Nat →
    List CallResult × List CallResult
  | store, [], _ => ([], store)
  | store, (recipient, DispatchInput.normal parse carrier) :: rest, now =>
    let out := make_outbound_call store recipient parse carrier now
    let next := make_bulk_calls out.store rest now
    (out.result :: next.1, next.2)
  | store, (recipient, DispatchInput.unexpected msg) :: rest, now =>
    let next := make_bulk_calls store rest now
    ({ recipient := recipient, call_sid := "", status := "error",
       initiated_at := now, error := some msg } :: next.1, next.2)

/-- Summary returned by `get_campaign_summary` when at least one call was
made (`outbound_caller.py` lines 266-271). The Python dict
`status_breakdown` maps each status string to its count, embedded as a
function; `success_rate` is the exact rational that line 268 formats with
one decimal and a percent sign. -/
structure CampaignSummary where
  total_calls : Nat
  success_rate : Rat
  status_breakdown : String → Nat
  successful_calls : Nat

/-- Embedding of `OutboundCaller.get_campaign_summary` (`outbound_caller.py`
lines 247-271): `none` models the early `{"message": "No calls made yet"}`
return on an empty store; otherwise `success_rate` is
`successful_calls / total_calls * 100`. -/
def get_campaign_summary (store : List CallResult) : Option CampaignSummary :=
  if store.isEmpty then none
  else
    let total := store.length
    let successful := (store.filter (fun r => r.status = "completed")).length
    some
      { total_calls := total
        success_rate := (successful : Rat) / (total : Rat) * 100
        status_breakdown := fun s => (store.filter (fun r => r.status = s)).length
        successful_calls := successful }

/-- Required environment variable names (`outbound_caller.py` lines 58-61). -/
def required_vars : List String :=
  ["TWILIO_ACCOUNT_SID", "TWILIO_AUTH_TOKEN", "TWILIO_PHONE_NUMBER",
   "LIVEKIT_API_KEY", "LIVEKIT_API_SECRET", "LIVEKIT_URL", "WEBHOOK_BASE_URL"]

/-- Python truthiness of an `os.getenv` result: unset (`None`) and the empty
string are both falsy. -/
def truthy : Option String → Bool
  | none => false
  | some s => !s.isEmpty

/-- List comprehension of `_validate_credentials` line 63: the required names
whose environment value is falsy. -/
def missing_vars (env : String → Option String) : List String :=
  required_vars.filter (fun v => !truthy (env v))

/-- Embedding of `OutboundCaller._validate_credentials` (`outbound_caller.py`
lines 56-65): raises `ValueError` (an `Except.error`) listing the missing
names joined by ", " exactly when at least one required value is missing. -/
def validate_credentials (env : String → Option String) : Except String Unit :=
  let missing := missing_vars env
  if missing.isEmpty then Except.ok ()
  else
    Except.error
      ("Missing required environment variables: " ++ String.intercalate ", " missing)

/-- Disconnect reason of the LiveKit participant, restricted to the cases the
pickup loop of `agent.py` distinguishes (lines 71 and 75): callee rejected,
callee unreachable, or anything else (including still connected). -/
inductive DisconnectReason where
  | userRejected
  | userUnavailable
  | other
deriving DecidableEq, Repr

/-- One poll's observation of the remote participant in the pickup loop of
`agent.py` lines 65-79: the `sip.callStatus` attribute (absent attribute is
`none`) and the disconnect reason. -/
structure PollObs where
  callStatus : Option String
  disconnect_reason : DisconnectReason
deriving DecidableEq, Repr

/-- Outcome of the pickup wait in `entrypoint` (`agent.py` lines 62-84). -/
inductive PickupOutcome where
  | active
  | rejected
  | unavailable
  | timedOut
deriving DecidableEq, Repr

/-- Observable effects of the tail of `entrypoint`: the pickup outcome, how
many times `ctx.shutdown()` ran, and whether `run_voice_pipeline_agent`
(the conversational session) was launched. -/
structure WatchResult where
  outcome : PickupOutcome
  shutdowns : Nat
  sessionLaunched : Bool
deriving DecidableEq, Repr

/-- Embedding of the polling loop of `agent.py` lines 65-79. `obs k` is the
participant observed at the k-th poll; `fuel` is the number of polls the
60-second ceiling admits at one poll per 0.2-second sleep. Each iteration
checks, in source order: `sip.callStatus == "active"`, then
`USER_REJECTED`, then `USER_UNAVAILABLE`, and otherwise sleeps and polls
again; exhausting the ceiling leaves `picked_up` false. -/
def pickup_loop (obs : Nat → PollObs) : Nat → Nat → PickupOutcome
  | 0, _ => PickupOutcome.timedOut
  | fuel + 1, k =>
    if (obs k).callStatus = some "active" then PickupOutcome.active
    else if (obs k).disconnect_reason = DisconnectReason.userRejected then
      PickupOutcome.rejected
    else if (obs k).disconnect_reason = DisconnectReason.userUnavailable then
      PickupOutcome.unavailable
    else pickup_loop obs fuel (k + 1)

/-- Number of polls the 60-second ceiling admits at a 0.2-second interval
(`agent.py` lines 65 and 79). -/
def pickup_ceiling_polls : Nat := 300

/-- Embedding of `entrypoint`'s pickup handling (`agent.py` lines 62-87):
the rejected, unavailable and timed-out branches each call `ctx.shutdown()`
once and return without starting the agent; only the active branch reaches
`run_voice_pipeline_agent`. -/
def watch_pickup (obs : Nat → PollObs) (fuel : Nat) : WatchResult :=
  match pickup_loop obs fuel 0 with
  | PickupOutcome.active =>
    { outcome := PickupOutcome.active, shutdowns := 0, sessionLaunched := true }
  | o => { outcome := o, shutdowns := 1, sessionLaunched := false }

/-- Form fields of the `POST /webhook/call-status` request that the handler
passes to `update_outbound_caller_status` (`webhook_handler.py` lines
104-107); `request.values.get` yields `none` for an absent field. The
remaining fields (From, To, Direction, Timestamp) only feed logging. -/
structure StatusUpdateRequest where
  CallSid : Option String
  CallStatus : Option String
  CallDuration : Option String
deriving DecidableEq, Repr

/-- Acknowledgment JSON returned to the carrier by `call_status_webhook`
(`webhook_handler.py` line 129). -/
structure WebhookAck where
  status : String
deriving DecidableEq, Repr

/-- Embedding of `update_outbound_caller_status` (`webhook_handler.py` lines
180-187): the body is `pass` — the store is returned unchanged. -/
def update_outbound_caller_status (store : List CallResult)
    (_call_sid _status _duration : Option String) : List CallResult :=
  store

/-- Embedding of `call_status_webhook` (`webhook_handler.py` lines 98-129):
reads the form fields, logs (no state), calls `log_call_completion` on
completion statuses (logging only), calls `update_outbound_caller_status`,
and returns `{'status': 'received'}` — a 200 response — unconditionally. -/
def call_status_webhook (store : List CallResult) (req : StatusUpdateRequest) :
    WebhookAck × List CallResult :=
  let store' := update_outbound_caller_status store req.CallSid req.CallStatus req.CallDuration
  ({ status := "received" }, store')

/-- Concrete recipient used by the closed instances below (spec section 8,
scenario 6). -/
def sampleRecipient : CallRecipient :=
  { name := "Jane Doe", phone_number := "415-555-0100" }

/-- Concrete four-call store with statuses completed, completed, failed,
no-answer (spec section 8, scenario 8). -/
def demo_store : List CallResult :=
  [{ recipient := sampleRecipient, call_sid := "CA1", status := "completed", initiated_at := 0 },
   { recipient := sampleRecipient, call_sid := "CA2", status := "completed", initiated_at := 1 },
   { recipient := sampleRecipient, call_sid := "CA3", status := "failed", initiated_at := 2 },
   { recipient := sampleRecipient, call_sid := "CA4", status := "no-answer", initiated_at := 3 }]

/-- Library outcome for a string that parses but is not a valid number:
`is_valid_number` is false, so line 93 raises. -/
def invalidParse : ParseResult :=
  { parses := true, parseErr := "", is_valid := false, e164 := "" }

/-- Library outcome for a string `phonenumbers.parse` itself rejects. -/
def unparsableParse : ParseResult :=
  { parses := false, parseErr := "could not interpret number", is_valid := false, e164 := "" }

/-- Environment in which exactly TWILIO_ACCOUNT_SID is unset. -/
def envMissingSid : String → Option String :=
  fun v => if v = "TWILIO_ACCOUNT_SID" then none else some "configured"

/-- Concrete three-recipient campaign: one successful dispatch, one
escaping exception, one validation failure. -/
def demo_jobs : List (CallRecipient × DispatchInput) :=
  [(sampleRecipient,
    DispatchInput.normal
      { parses := true, parseErr := "", is_valid := true, e164 := "+14155550100" }
      (CarrierOutcome.ok { sid := "CA10", status := "queued" })),
   ({ name := "Bob", phone_number := "bad" }, DispatchInput.unexpected "boom"),
   (sampleRecipient, DispatchInput.normal invalidParse (CarrierOutcome.err "x"))]

lemma update_call_result_length (store : List CallResult) (sid st : String)
    (d : Option Int) (now : Nat) :
    (update_call_result store sid st d now).length = store.length := by
  induction store with
  | nil => rfl
  | cons r rs ih =>
    simp only [update_call_result]
    split <;> simp [ih]

lemma firstMatchIdx_none_iff (store : List CallResult) (sid : String) :
    firstMatchIdx store sid = none ↔ ∀ r ∈ store, r.call_sid ≠ sid := by
  induction store with
  | nil => simp [firstMatchIdx]
  | cons r rs ih =>
    by_cases h : r.call_sid = sid
    · simp [firstMatchIdx, h]
    · simp [firstMatchIdx, h, ih]

lemma update_call_result_no_match (store : List CallResult) (sid st : String)
    (d : Option Int) (now : Nat) (h : firstMatchIdx store sid = none) :
    update_call_result store sid st d now = store := by
  induction store with
  | nil => rfl
  | cons r rs ih =>
    by_cases hr : r.call_sid = sid
    · simp [firstMatchIdx, hr] at h
    · simp only [firstMatchIdx, hr, if_neg, ite_false, Option.map_eq_none'] at h
      simp [update_call_result, hr, ih h]

lemma update_call_result_getElem_of_ne (store : List CallResult) (sid st : String)
    (d : Option Int) (now : Nat) :
    ∀ i : Nat, firstMatchIdx store sid ≠ some i →
      (update_call_result store sid st d now)[i]? = store[i]? := by
  induction store with
  | nil => intro i _; rfl
  | cons r rs ih =>
    intro i hi
    by_cases hr : r.call_sid = sid
    · have hi0 : i ≠ 0 := by
        intro h0
        exact hi (by simp [firstMatchIdx, hr, h0])
      obtain ⟨j, rfl⟩ := Nat.exists_eq_succ_of_ne_zero hi0
      simp [update_call_result, hr]
    · cases i with
      | zero => simp [update_call_result, hr]
      | succ j =>
        have hj : firstMatchIdx rs sid ≠ some j := by
          intro hc
          exact hi (by simp [firstMatchIdx, hr, hc])
        simp [update_call_result, hr, ih j hj]

lemma update_call_result_getElem_of_match (store : List CallResult) (sid st : String)
    (d : Option Int) (now : Nat) :
    ∀ i : Nat, firstMatchIdx store sid = some i →
      ∃ r, store[i]? = some r ∧
        (update_call_result store sid st d now)[i]?
          = some (apply_status_update r st d now) := by
  induction store with
  | nil => intro i h; simp [firstMatchIdx] at h
  | cons r rs ih =>
    intro i h
    by_cases hr : r.call_sid = sid
    · have h0 : i = 0 := by
        rw [firstMatchIdx, if_pos hr] at h
        exact (Option.some_inj.mp h).symm
      subst h0
      exact ⟨r, by simp, by simp [update_call_result, hr]⟩
    · rw [firstMatchIdx, if_neg hr] at h
      obtain ⟨j, hj, hji⟩ := Option.map_eq_some'.mp h
      subst hji
      obtain ⟨rr, h1, h2⟩ := ih j hj
      exact ⟨rr, by simpa using h1, by simpa [update_call_result, hr] using h2⟩

/-- C10: `update_call_result` touches at most the earliest record whose
`call_sid` matches; every other record is unchanged (and the length is
preserved); the matched record keeps its recipient, call_sid,
initiated_at and error; its status becomes the given status unaltered;
`completed_at` is stamped exactly when the new status is one of
completed/failed/busy/no-answer; a reported duration of 0, and an absent
duration, leave the stored duration unchanged. -/
theorem update_call_result_frame (store : List CallResult) (sid st : String)
    (d : Option Int) (now : Nat) :
    (update_call_result store sid st d now).length = store.length ∧
    (∀ i : Nat, firstMatchIdx store sid ≠ some i →
      (update_call_result store sid st d now)[i]? = store[i]?) ∧
    (∀ i : Nat, firstMatchIdx store sid = some i →
      ∃ r r', store[i]? = some r ∧
        (update_call_result store sid st d now)[i]? = some r' ∧
        r'.recipient = r.recipient ∧
        r'.call_sid = r.call_sid ∧
        r'.initiated_at = r.initiated_at ∧
        r'.error = r.error ∧
        r'.status = st ∧
        r'.completed_at = (if st ∈ completion_statuses then some now else r.completed_at) ∧
        r'.duration = (match d with
          | some k => if k = 0 then r.duration else some k
          | none => r.duration)) := by
  refine ⟨update_call_result_length store sid st d now,
    update_call_result_getElem_of_ne store sid st d now, ?_⟩
  intro i h
  obtain ⟨r, h1, h2⟩ := update_call_result_getElem_of_match store sid st d now i h
  exact ⟨r, apply_status_update r st d now, h1, h2, rfl, rfl, rfl, rfl, rfl, rfl, rfl⟩

theorem update_call_result_frame_witness :
    (update_call_result demo_store "CA2" "ringing" (some 7) 9).length = demo_store.length ∧
    (update_call_result demo_store "CA2" "ringing" (some 7) 9)[0]? = demo_store[0]? := by
  have h := update_call_result_frame demo_store "CA2" "ringing" (some 7) 9
  exact ⟨h.1, h.2.1 0 (by decide)⟩

/-- C1 fails on the code: `update_call_result` has no terminal-state guard,
so a record whose status is the terminal "completed" re-enters the
non-terminal "ringing" state on a later update. -/
theorem monotonic_status_counterexample :
    "completed" ∈ terminal_statuses ∧
    (update_call_result
        [{ recipient := sampleRecipient, call_sid := "CA1", status := "completed",
           initiated_at := 0 }] "CA1" "ringing" none 5).map CallResult.status
      = ["ringing"] ∧
    "ringing" ∉ terminal_statuses := by
  refine ⟨by decide, by decide, by decide⟩

/-- C1 (amended): status updates are applied unconditionally —
`update_call_result` overwrites the earliest matching record's status with
the given one even when the current status is terminal, so terminal
statuses are not absorbing; webhook reconciliation
(`update_outbound_caller_status`) never mutates any record. -/
theorem update_status_unconditional (store : List CallResult) (sid st : String)
    (d : Option Int) (now : Nat) :
    (∀ i : Nat, firstMatchIdx store sid = some i →
      ((update_call_result store sid st d now)[i]?).map CallResult.status = some st) ∧
    (∀ a b c, update_outbound_caller_status store a b c = store) := by
  refine ⟨?_, fun _ _ _ => rfl⟩
  intro i h
  obtain ⟨r, _, h2⟩ := update_call_result_getElem_of_match store sid st d now i h
  simp [h2, apply_status_update]

theorem update_status_unconditional_witness :
    ((update_call_result demo_store "CA1" "ringing" none 5)[0]?).map CallResult.status
      = some "ringing" := by
  have h := update_status_unconditional demo_store "CA1" "ringing" none 5
  exact h.1 0 (by decide)

/-- C6: a status webhook whose carrier call identifier matches no stored
record is answered with the received acknowledgment (the 200 response of
line 129) and leaves the store untouched; likewise `update_call_result`
with an unmatched sid mutates no record. -/
theorem webhook_unknown_sid_no_mutation (store : List CallResult)
    (req : StatusUpdateRequest) (sid : String)
    (hmatch : ∀ r ∈ store, r.call_sid ≠ sid) :
    call_status_webhook store req = ({ status := "received" }, store) ∧
    (∀ st d now, update_call_result store sid st d now = store) := by
  refine ⟨rfl, fun st d now => ?_⟩
  exact update_call_result_no_match store sid st d now
    ((firstMatchIdx_none_iff store sid).mpr hmatch)

theorem webhook_unknown_sid_no_mutation_witness :
    call_status_webhook demo_store
        { CallSid := some "CA999", CallStatus := some "completed",
          CallDuration := some "30" }
      = ({ status := "received" }, demo_store) ∧
    update_call_result demo_store "CA999" "completed" (some 30) 11 = demo_store := by
  have h := webhook_unknown_sid_no_mutation demo_store
    { CallSid := some "CA999", CallStatus := some "completed", CallDuration := some "30" }
    "CA999" (by decide)
  exact ⟨h.1, h.2 "completed" (some 30) 11⟩

lemma make_outbound_call_recipient (store : List CallResult) (recipient : CallRecipient)
    (parse : ParseResult) (carrier : CarrierOutcome) (now : Nat) :
    (make_outbound_call store recipient parse carrier now).result.recipient = recipient := by
  cases hv : validate_phone_number parse <;> cases carrier <;>
    simp [make_outbound_call, hv]

/-- C2: `make_outbound_call` yields a `CallResult` on every path and appends
exactly it to the store; a caught `NumberParseException` or
`TwilioException` produces a result with status "failed", empty sid and
the exception text as its error (non-empty whenever the exception text
is); on success the result carries the carrier-assigned sid and status. -/
theorem make_outbound_call_total_result (store : List CallResult)
    (recipient : CallRecipient) (parse : ParseResult) (carrier : CarrierOutcome)
    (now : Nat) :
    (make_outbound_call store recipient parse carrier now).store
      = store ++ [(make_outbound_call store recipient parse carrier now).result] ∧
    (make_outbound_call store recipient parse carrier now).result.recipient = recipient ∧
    (∀ e, validate_phone_number parse = Except.error e →
      (make_outbound_call store recipient parse carrier now).result.status = "failed" ∧
      (make_outbound_call store recipient parse carrier now).result.call_sid = "" ∧
      (make_outbound_call store recipient parse carrier now).result.error = some e ∧
      (e ≠ "" →
        (make_outbound_call store recipient parse carrier now).result.error ≠ some "")) ∧
    (∀ num e, validate_phone_number parse = Except.ok num →
      carrier = CarrierOutcome.err e →
      (make_outbound_call store recipient parse carrier now).result.status = "failed" ∧
      (make_outbound_call store recipient parse carrier now).result.call_sid = "" ∧
      (make_outbound_call store recipient parse carrier now).result.error = some e ∧
      (e ≠ "" →
        (make_outbound_call store recipient parse carrier now).result.error ≠ some "")) ∧
    (∀ num call, validate_phone_number parse = Except.ok num →
      carrier = CarrierOutcome.ok call →
      (make_outbound_call store recipient parse carrier now).result.call_sid = call.sid ∧
      (make_outbound_call store recipient parse carrier now).result.status = call.status ∧
      (make_outbound_call store recipient parse carrier now).result.error = none) := by
  refine ⟨?_, make_outbound_call_recipient store recipient parse carrier now, ?_, ?_, ?_⟩
  · cases hv : validate_phone_number parse <;> cases carrier <;>
      simp [make_outbound_call, hv]
  · intro e he
    refine ⟨by simp [make_outbound_call, he], by simp [make_outbound_call, he],
      by simp [make_outbound_call, he], fun hne => by simp [make_outbound_call, he, hne]⟩
  · intro num e hok hcar
    subst hcar
    refine ⟨by simp [make_outbound_call, hok], by simp [make_outbound_call, hok],
      by simp [make_outbound_call, hok], fun hne => by simp [make_outbound_call, hok, hne]⟩
  · intro num call hok hcar
    subst hcar
    refine ⟨by simp [make_outbound_call, hok], by simp [make_outbound_call, hok],
      by simp [make_outbound_call, hok]⟩

theorem make_outbound_call_total_result_witness :
    (make_outbound_call [] sampleRecipient invalidParse
        (CarrierOutcome.ok { sid := "CA10", status := "queued" }) 0).result.status
      = "failed" ∧
    (make_outbound_call [] sampleRecipient invalidParse
        (CarrierOutcome.ok { sid := "CA10", status := "queued" }) 0).result.error
      = some "The provided number is not valid" := by
  have h := make_outbound_call_total_result [] sampleRecipient invalidParse
    (CarrierOutcome.ok { sid := "CA10", status := "queued" }) 0
  have h3 := h.2.2.1 "The provided number is not valid" rfl
  exact ⟨h3.1, h3.2.2.1⟩

/-- C3: `make_bulk_calls` produces exactly one result per input recipient,
in input order (the i-th result's recipient is the i-th input recipient),
and a dispatch failure does not stop the campaign: an escaping exception
yields that recipient's result with status "error" carrying the exception
text, and iteration continues over the remaining recipients. -/
theorem make_bulk_calls_one_result_per_recipient (store : List CallResult)
    (jobs : List (CallRecipient × DispatchInput)) (now : Nat) :
    (make_bulk_calls store jobs now).1.length = jobs.length ∧
    (∀ i : Nat, ((make_bulk_calls store jobs now).1[i]?).map CallResult.recipient
      = (jobs[i]?).map Prod.fst) ∧
    (∀ i : Nat, ∀ r : CallResult, ∀ j : CallRecipient × DispatchInput, ∀ msg : String,
      (make_bulk_calls store jobs now).1[i]? = some r → jobs[i]? = some j →
      j.2 = DispatchInput.unexpected msg →
      r.status = "error" ∧ r.error = some msg) := by
  induction jobs generalizing store with
  | nil =>
    refine ⟨rfl, fun i => by simp [make_bulk_calls], fun i r j msg h1 => by
      simp [make_bulk_calls] at h1⟩
  | cons job rest ih =>
    obtain ⟨recipient, input⟩ := job
    cases input with
    | normal parse carrier =>
      obtain ⟨ihl, ihr, ihe⟩ :=
        ih (make_outbound_call store recipient parse carrier now).store
      refine ⟨by simp [make_bulk_calls, ihl], ?_, ?_⟩
      · intro i
        cases i with
        | zero => simp [make_bulk_calls, make_outbound_call_recipient]
        | succ n => simpa [make_bulk_calls] using ihr n
      · intro i r j msg h1 h2 h3
        cases i with
        | zero =>
          simp only [make_bulk_calls, List.getElem?_cons_zero, Option.some_inj] at h1 h2
          rw [← h2] at h3
          simp at h3
        | succ n =>
          simp only [make_bulk_calls, List.getElem?_cons_succ] at h1 h2
          exact ihe n r j msg h1 h2 h3
    | unexpected msg0 =>
      obtain ⟨ihl, ihr, ihe⟩ := ih store
      refine ⟨by simp [make_bulk_calls, ihl], ?_, ?_⟩
      · intro i
        cases i with
        | zero => simp [make_bulk_calls]
        | succ n => simpa [make_bulk_calls] using ihr n
      · intro i r j msg h1 h2 h3
        cases i with
        | zero =>
          simp only [make_bulk_calls, List.getElem?_cons_zero, Option.some_inj] at h1 h2
          rw [← h2] at h3
          simp only at h3
          obtain rfl : msg0 = msg := by
            injection h3
          rw [← h1]
          exact ⟨rfl, rfl⟩
        | succ n =>
          simp only [make_bulk_calls, List.getElem?_cons_succ] at h1 h2
          exact ihe n r j msg h1 h2 h3

theorem make_bulk_calls_one_result_per_recipient_witness :
    (make_bulk_calls [] demo_jobs 0).1.length = demo_jobs.length ∧
    ((make_bulk_calls [] demo_jobs 0).1[0]?).map CallResult.recipient
      = (demo_jobs[0]?).map Prod.fst ∧
    (make_bulk_calls [] demo_jobs 0).1[1]? = some
      { recipient := { name := "Bob", phone_number := "bad" }, call_sid := "",
        status := "error", initiated_at := 0, error := some "boom" } ∧
    ({ recipient := { name := "Bob", phone_number := "bad" }, call_sid := "",
       status := "error", initiated_at := 0,
       error := some "boom" } : CallResult).status = "error" := by
  have h := make_bulk_calls_one_result_per_recipient [] demo_jobs 0
  refine ⟨h.1, h.2.1 0, by decide, ?_⟩
  exact (h.2.2 1 _
    ({ name := "Bob", phone_number := "bad" }, DispatchInput.unexpected "boom")
    "boom" (by decide) rfl rfl).1

/-- C7: a phone number the library cannot parse, or that does not represent
a valid number, makes `validate_phone_number` raise the invalid-number
error, and for such an input `make_outbound_call` never issues the Twilio
create-call request: validation strictly precedes the carrier call. -/
theorem validation_precedes_carrier_call (parse : ParseResult) :
    (¬(parse.parses = true ∧ parse.is_valid = true) →
      ∃ e, validate_phone_number parse = Except.error e) ∧
    (∀ e, validate_phone_number parse = Except.error e →
      ∀ (store : List CallResult) (recipient : CallRecipient)
        (carrier : CarrierOutcome) (now : Nat),
        (make_outbound_call store recipient parse carrier now).carrierCalled = false ∧
        (make_outbound_call store recipient parse carrier now).result.status
          = "failed") := by
  constructor
  · intro h
    by_cases h1 : parse.parses = true
    · have h2 : ¬(parse.is_valid = true) := fun h2 => h ⟨h1, h2⟩
      exact ⟨_, by rw [validate_phone_number, if_pos h1, if_neg h2]⟩
    · exact ⟨_, by rw [validate_phone_number, if_neg h1]⟩
  · intro e he store recipient carrier now
    refine ⟨?_, ?_⟩ <;> simp [make_outbound_call, he]

theorem validation_precedes_carrier_call_witness :
    (∃ e, validate_phone_number unparsableParse = Except.error e) ∧
    (make_outbound_call [] sampleRecipient unparsableParse
        (CarrierOutcome.ok { sid := "CA10", status := "queued" }) 0).carrierCalled
      = false := by
  have h := validation_precedes_carrier_call unparsableParse
  refine ⟨h.1 ?_, ?_⟩
  · simp [unparsableParse]
  · exact (h.2 "could not interpret number" rfl [] sampleRecipient
      (CarrierOutcome.ok { sid := "CA10", status := "queued" }) 0).1

lemma pickup_loop_timedOut (obs : Nat → PollObs) :
    ∀ fuel k : Nat,
      (∀ j, j < fuel → (obs (k + j)).callStatus ≠ some "active" ∧
        (obs (k + j)).disconnect_reason ≠ DisconnectReason.userRejected ∧
        (obs (k + j)).disconnect_reason ≠ DisconnectReason.userUnavailable) →
      pickup_loop obs fuel k = PickupOutcome.timedOut := by
  intro fuel
  induction fuel with
  | zero => intro k _; rfl
  | succ f ih =>
    intro k h
    have h0 := h 0 (Nat.succ_pos f)
    simp only [Nat.add_zero] at h0
    rw [pickup_loop, if_neg h0.1, if_neg h0.2.1, if_neg h0.2.2]
    refine ih (k + 1) (fun j hj => ?_)
    have heq : k + 1 + j = k + (j + 1) := by omega
    rw [heq]
    exact h (j + 1) (by omega)

lemma pickup_loop_active (obs : Nat → PollObs) :
    ∀ fuel k j : Nat, j < fuel → (obs (k + j)).callStatus = some "active" →
      (∀ m, m < j → (obs (k + m)).disconnect_reason ≠ DisconnectReason.userRejected ∧
        (obs (k + m)).disconnect_reason ≠ DisconnectReason.userUnavailable) →
      pickup_loop obs fuel k = PickupOutcome.active := by
  intro fuel
  induction fuel with
  | zero => intro k j hj; exact absurd hj (Nat.not_lt_zero j)
  | succ f ih =>
    intro k j hj hact hquiet
    by_cases h0 : (obs k).callStatus = some "active"
    · rw [pickup_loop, if_pos h0]
    · have hj0 : j ≠ 0 := by
        rintro rfl
        rw [Nat.add_zero] at hact
        exact h0 hact
      obtain ⟨j', rfl⟩ := Nat.exists_eq_succ_of_ne_zero hj0
      have hq0 := hquiet 0 (Nat.succ_pos j')
      simp only [Nat.add_zero] at hq0
      rw [pickup_loop, if_neg h0, if_neg hq0.1, if_neg hq0.2]
      refine ih (k + 1) j' (by omega) ?_ (fun m hm => ?_)
      · have heq : k + 1 + j' = k + (j' + 1) := by omega
        rw [heq]
        exact hact
      · have heq : k + 1 + m = k + (m + 1) := by omega
        rw [heq]
        exact hquiet (m + 1) (by omega)

/-- C4: if within the polling ceiling the participant attribute never reads
"active" and the disconnect reason never indicates rejection or
unavailability, the watcher ends with the timed-out outcome, calls
`ctx.shutdown()` exactly once, and the conversational session is never
launched. -/
theorem watcher_timeout_teardown (obs : Nat → PollObs) (fuel : Nat)
    (h : ∀ j, j < fuel → (obs j).callStatus ≠ some "active" ∧
      (obs j).disconnect_reason ≠ DisconnectReason.userRejected ∧
      (obs j).disconnect_reason ≠ DisconnectReason.userUnavailable) :
    (watch_pickup obs fuel).outcome = PickupOutcome.timedOut ∧
    (watch_pickup obs fuel).shutdowns = 1 ∧
    (watch_pickup obs fuel).sessionLaunched = false := by
  have hl : pickup_loop obs fuel 0 = PickupOutcome.timedOut :=
    pickup_loop_timedOut obs fuel 0 (fun j hj => by simpa using h j hj)
  simp [watch_pickup, hl]

theorem watcher_timeout_teardown_witness :
    (watch_pickup
        (fun _ => { callStatus := none, disconnect_reason := DisconnectReason.other })
        pickup_ceiling_polls).outcome = PickupOutcome.timedOut ∧
    (watch_pickup
        (fun _ => { callStatus := none, disconnect_reason := DisconnectReason.other })
        pickup_ceiling_polls).shutdowns = 1 ∧
    (watch_pickup
        (fun _ => { callStatus := none, disconnect_reason := DisconnectReason.other })
        pickup_ceiling_polls).sessionLaunched = false :=
  watcher_timeout_teardown
    (fun _ => { callStatus := none, disconnect_reason := DisconnectReason.other })
    pickup_ceiling_polls
    (fun _ _ => ⟨by simp, by simp, by simp⟩)

/-- C5: if the participant attribute reads "active" at some poll within the
ceiling and no earlier poll observed rejection or unavailability, the
watcher ends with the active outcome (so never timed-out), calls no
shutdown, and launches the conversational session; moreover, for every
run, the session is launched exactly when the outcome is active. -/
theorem watcher_active_within_ceiling (obs : Nat → PollObs) (fuel k : Nat)
    (hk : k < fuel) (hact : (obs k).callStatus = some "active")
    (hquiet : ∀ j, j < k →
      (obs j).disconnect_reason ≠ DisconnectReason.userRejected ∧
      (obs j).disconnect_reason ≠ DisconnectReason.userUnavailable) :
    (watch_pickup obs fuel).outcome = PickupOutcome.active ∧
    (watch_pickup obs fuel).outcome ≠ PickupOutcome.timedOut ∧
    (watch_pickup obs fuel).sessionLaunched = true ∧
    (watch_pickup obs fuel).shutdowns = 0 ∧
    (∀ (others : Nat → PollObs) (otherFuel : Nat),
      (watch_pickup others otherFuel).sessionLaunched = true ↔
        (watch_pickup others otherFuel).outcome = PickupOutcome.active) := by
  have hl : pickup_loop obs fuel 0 = PickupOutcome.active :=
    pickup_loop_active obs fuel 0 k hk (by simpa using hact)
      (fun m hm => by simpa using hquiet m hm)
  refine ⟨by simp [watch_pickup, hl], by simp [watch_pickup, hl],
    by simp [watch_pickup, hl], by simp [watch_pickup, hl], ?_⟩
  intro others otherFuel
  unfold watch_pickup
  cases pickup_loop others otherFuel 0 <;> simp

theorem watcher_active_within_ceiling_witness :
    (watch_pickup
        (fun _ => { callStatus := some "active",
                    disconnect_reason := DisconnectReason.other })
        pickup_ceiling_polls).outcome = PickupOutcome.active :=
  (watcher_active_within_ceiling
    (fun _ => { callStatus := some "active", disconnect_reason := DisconnectReason.other })
    pickup_ceiling_polls 0 (by decide) rfl
    (fun j hj => absurd hj (Nat.not_lt_zero j))).1

/-- C8: for every non-empty store the campaign summary exists and its
success rate is the number of completed records divided by the total,
times 100; on the concrete four-call store with statuses completed,
completed, failed, no-answer it equals 50.0 percent. -/
theorem campaign_summary_success_rate :
    (∀ store : List CallResult, store ≠ [] →
      ∃ s, get_campaign_summary store = some s ∧
        s.total_calls = store.length ∧
        s.successful_calls = (store.filter (fun r => r.status = "completed")).length ∧
        s.success_rate
          = ((store.filter (fun r => r.status = "completed")).length : Rat)
              / (store.length : Rat) * 100) ∧
    (∃ s, get_campaign_summary demo_store = some s ∧ s.success_rate = 50) := by
  constructor
  · intro store hne
    have h0 : store.isEmpty = false := by
      cases store with
      | nil => exact absurd rfl hne
      | cons a l => rfl
    refine ⟨{ total_calls := store.length,
              success_rate := ((store.filter (fun r => r.status = "completed")).length : Rat)
                / (store.length : Rat) * 100,
              status_breakdown := fun st => (store.filter (fun r => r.status = st)).length,
              successful_calls := (store.filter (fun r => r.status = "completed")).length },
      ?_, rfl, rfl, rfl⟩
    simp [get_campaign_summary, h0]
  · refine ⟨_, rfl, ?_⟩
    show ((demo_store.filter (fun r => r.status = "completed")).length : Rat)
        / (demo_store.length : Rat) * 100 = 50
    have hc : (demo_store.filter (fun r => r.status = "completed")).length = 2 := by decide
    have hlen : demo_store.length = 4 := by decide
    rw [hc, hlen]
    norm_num

theorem campaign_summary_success_rate_witness :
    ∃ s, get_campaign_summary demo_store = some s ∧ s.total_calls = 4 := by
  obtain ⟨s, h1, h2, -, -⟩ :=
    campaign_summary_success_rate.1 demo_store (by simp [demo_store])
  exact ⟨s, h1, by rw [h2]; rfl⟩

/-- C9: credential validation fails exactly when some required environment
value is missing (unset or empty), with an error that lists precisely the
missing names; when nothing is missing it does not raise. -/
theorem validate_credentials_enumerates_missing (env : String → Option String) :
    (missing_vars env = [] → validate_credentials env = Except.ok ()) ∧
    (missing_vars env ≠ [] →
      validate_credentials env =
        Except.error ("Missing required environment variables: "
          ++ String.intercalate ", " (missing_vars env))) ∧
    (∀ v, v ∈ missing_vars env ↔ v ∈ required_vars ∧ truthy (env v) = false) := by
  refine ⟨?_, ?_, ?_⟩
  · intro h
    simp [validate_credentials, h]
  · intro h
    have h0 : (missing_vars env).isEmpty = false := by
      cases hm : missing_vars env with
      | nil => exact absurd hm h
      | cons a l => rfl
    simp [validate_credentials, h0]
  · intro v
    simp [missing_vars, List.mem_filter]

theorem validate_credentials_enumerates_missing_witness :
    validate_credentials envMissingSid
      = Except.error "Missing required environment variables: TWILIO_ACCOUNT_SID" ∧
    ("TWILIO_ACCOUNT_SID" ∈ missing_vars envMissingSid ↔
      "TWILIO_ACCOUNT_SID" ∈ required_vars ∧
        truthy (envMissingSid "TWILIO_ACCOUNT_SID") = false) := by
  have h := validate_credentials_enumerates_missing envMissingSid
  have hm : missing_vars envMissingSid = ["TWILIO_ACCOUNT_SID"] := by decide
  refine ⟨?_, h.2.2 "TWILIO_ACCOUNT_SID"⟩
  have he := h.2.1 (by rw [hm]; simp)
  rw [hm] at he
  rw [he]
  rfl

end LivekitGemini
